import Mathlib

/-
Verification of the RC522 driver (src/main.ts).

The driver is embedded shallowly at two levels:

* `SpiLevel`: the raw serial-bus framing of `writeRegister` / `readRegister`
  (chip-select pin writes and individual SPI byte transfers), as an event
  trace.  Used for the bit-exact framing law.

* `RC522`: the register-level model used by everything above the register
  access layer.  A `Device` is a mock transport: `readFn k addr` is the byte
  the chip returns for the k-th register read (counted over the whole run),
  and `readCost` is the wall-clock time consumed by one register read
  (`input.runningTime()` in the source is modelled by the `clock` field of
  the state; register writes are modelled as instantaneous).  The state also
  logs every register write, so register-write sequences can be compared.

The two unbounded-looking loops of the source are modelled with explicit
fuel: `crcPoll` is intrinsically bounded (255 iterations in the source), and
the Command Engine wait loop (`waitLoop`) takes a fuel argument, with `none`
meaning the loop was still spinning after `fuel` polls (the source would
still be spinning at that point, i.e. a potential hang).
-/

namespace SpiLevel

/-- One observable action on the serial bus: a digital pin write
(chip select), one SPI byte sent, or one SPI byte clocked back. -/
inductive BusEv where
  | pinWrite (pin val : Nat)
  | spiWrite (b : Nat)
  | spiRead (b : Nat)
deriving DecidableEq, Repr

/-- The bus-side mock: `resp k` is the byte returned by the k-th SPI read. -/
structure Bus where
  resp : Nat → Nat

/-- Bus state: the trace of events so far and how many SPI reads happened. -/
structure BusSt where
  evs : List BusEv
  readsDone : Nat
deriving DecidableEq, Repr

/-- Default chip-select pin of the source (DigitalPin.P8). -/
def sdaPin : Nat := 8

/-- Source lines 62-69: frame `addr` as `(addr << 1) & 0x7E`, pull CS low,
send the framed address then the value, pull CS high. -/
def writeRegister (s : BusSt) (addr val : Nat) : BusSt :=
  { s with evs := s.evs ++
      [BusEv.pinWrite sdaPin 0,
       BusEv.spiWrite ((addr <<< 1) &&& 0x7E),
       BusEv.spiWrite val,
       BusEv.pinWrite sdaPin 1] }

/-- Source lines 71-78: frame `addr` as `((addr << 1) & 0x7E) | 0x80`, pull
CS low, send the framed address, clock one byte back, pull CS high, and
return the byte read. -/
def readRegister (bus : Bus) (s : BusSt) (addr : Nat) : Nat × BusSt :=
  let v := bus.resp s.readsDone
  (v, { evs := s.evs ++
          [BusEv.pinWrite sdaPin 0,
           BusEv.spiWrite (((addr <<< 1) &&& 0x7E) ||| 0x80),
           BusEv.spiRead v,
           BusEv.pinWrite sdaPin 1],
        readsDone := s.readsDone + 1 })

end SpiLevel

namespace RC522

-- Register addresses (source lines 10-29).
def CommandReg : Nat := 0x01
def CommIEnReg : Nat := 0x02
def DivIEnReg : Nat := 0x03
def CommIrqReg : Nat := 0x04
def DivIrqReg : Nat := 0x05
def ErrorReg : Nat := 0x06
def FIFODataReg : Nat := 0x09
def FIFOLevelReg : Nat := 0x0A
def ControlReg : Nat := 0x0C
def BitFramingReg : Nat := 0x0D
def ModeReg : Nat := 0x11
def TxControlReg : Nat := 0x14
def TxAutoReg : Nat := 0x15
def TModeReg : Nat := 0x2A
def TPrescalerReg : Nat := 0x2B
def TReloadRegL : Nat := 0x2D
def TReloadRegH : Nat := 0x2C

-- PCD command codes (source lines 31-37).
def PCD_IDLE : Nat := 0x00
def PCD_TRANSCEIVE : Nat := 0x0C
def PCD_RESETPHASE : Nat := 0x0F
def PCD_CALCCRC : Nat := 0x03

-- PICC command codes (source lines 40-48).
def PICC_REQIDL : Nat := 0x26
def PICC_ANTICOLL : Nat := 0x93
def PICC_HALT : Nat := 0x50

/-- A register-level mock transport: `readFn k addr` answers the k-th
register read (global read counter) when it targets `addr`; `readCost`
is the wall-clock time one register read takes. -/
structure Device where
  readFn : Nat → Nat → Nat
  readCost : Nat

/-- Driver-visible state: the running-time clock, the global count of
register reads performed, the ordered log of register writes `(addr, val)`,
and the `_initialized` flag of the source (field `inited`). -/
structure St where
  clock : Nat
  reads : Nat
  writes : List (Nat × Nat)
  inited : Bool
deriving DecidableEq, Repr

/-- Result record of `communicateWithPICC` (source line 134). -/
structure PiccResult where
  status : Bool
  backData : List Nat
  backBits : Nat
deriving DecidableEq, Repr

/-- Register read: returns the device's answer for the current read index
and advances the read counter and the clock. -/
def readRegister (dev : Device) (s : St) (addr : Nat) : Nat × St :=
  (dev.readFn s.reads addr,
   { s with clock := s.clock + dev.readCost, reads := s.reads + 1 })

/-- Register write: appended to the write log (modelled as instantaneous). -/
def writeRegister (s : St) (addr val : Nat) : St :=
  { s with writes := s.writes ++ [(addr, val)] }

/-- Source lines 80-83. -/
def setBitMask (dev : Device) (s : St) (reg mask : Nat) : St :=
  let p := readRegister dev s reg
  writeRegister p.2 reg (p.1 ||| mask)

/-- Source lines 85-88: `tmp & (~mask)` on 32-bit JS values. -/
def clearBitMask (dev : Device) (s : St) (reg mask : Nat) : St :=
  let p := readRegister dev s reg
  writeRegister p.2 reg (p.1 &&& (0xFFFFFFFF ^^^ mask))

/-- Source lines 90-95. -/
def antennaOn (dev : Device) (s : St) : St :=
  let p := readRegister dev s TxControlReg
  if p.1 &&& 0x03 ≠ 0x03 then writeRegister p.2 TxControlReg (p.1 ||| 0x03)
  else p.2

/-- Source lines 97-99. -/
def reset (s : St) : St :=
  writeRegister s CommandReg PCD_RESETPHASE

/-- The bounded poll loop of `calculateCRC` (source lines 110-118): read the
divider-interrupt register; if the CRC-ready bit 0x04 is set, read the two
result registers (low at 0x22, high at 0x21) and return them; otherwise
spend one unit of fuel; on exhaustion return `[0, 0]`. -/
def crcPoll (dev : Device) : Nat → St → List Nat × St
  | 0, s => ([0, 0], s)
  | fuel + 1, s =>
    let p := readRegister dev s DivIrqReg
    if p.1 &&& 0x04 ≠ 0 then
      let l := readRegister dev p.2 0x22
      let h := readRegister dev l.2 0x21
      ([l.1, h.1], h.2)
    else crcPoll dev fuel p.2

/-- Source lines 101-120. -/
def calculateCRC (dev : Device) (data : List Nat) (s : St) : List Nat × St :=
  let s1 := writeRegister s CommandReg PCD_IDLE
  let s2 := setBitMask dev s1 DivIrqReg 0x04
  let s3 := writeRegister s2 FIFOLevelReg 0x80
  let s4 := data.foldl (fun st b => writeRegister st FIFODataReg b) s3
  let s5 := writeRegister s4 CommandReg PCD_CALCCRC
  crcPoll dev 255 s5

/-- One uppercase hexadecimal digit (the source builds lowercase digits and
uppercases the whole string at the end; the composition is modelled). -/
def hexDigit (n : Nat) : Char :=
  if n < 10 then Char.ofNat (48 + n) else Char.ofNat (55 + n)

/-- Two-digit uppercase hexadecimal rendering of a byte (source pads a
single digit with a leading 0). -/
def byteHex (t : Nat) : String :=
  String.mk [hexDigit (t / 16), hexDigit (t % 16)]

/-- Source lines 122-132: bytes as two-digit hex, joined with a colon. -/
def toHexString (arr : List Nat) : String :=
  String.intercalate ":" (arr.map (fun t => byteHex (t &&& 0xFF)))

/-- Interrupt-enable / wait mask selection of source lines 140-146. -/
def irqMasks (command : Nat) : Nat × Nat :=
  if command = PCD_TRANSCEIVE then (0x77, 0x30) else (0x12, 0x00)

/-- The wait loop of source lines 163-170: read the communication-interrupt
register; break when a `waitIRq` bit is set, when the timer-interrupt bit
0x01 is set, or when more than `timeoutMs` wall-clock time has elapsed
since `start`.  `none` means the loop was still spinning after `fuel`
polls. -/
def waitLoop (dev : Device) (waitIRq timeoutMs start : Nat) :
    Nat → St → Option St
  | 0, _ => none
  | fuel + 1, s =>
    let p := readRegister dev s CommIrqReg
    if p.1 &&& waitIRq ≠ 0 then some p.2
    else if p.1 &&& 0x01 ≠ 0 then some p.2
    else if timeoutMs < p.2.clock - start then some p.2
    else waitLoop dev waitIRq timeoutMs start fuel p.2

/-- FIFO drain of source lines 181-183: read `n` bytes from the FIFO data
register in order. -/
def drainFifo (dev : Device) : Nat → St → List Nat × St
  | 0, s => ([], s)
  | n + 1, s =>
    let p := readRegister dev s FIFODataReg
    let rest := drainFifo dev n p.2
    (p.1 :: rest.1, rest.2)

/-- Everything `communicateWithPICC` does after its wait loop (source lines
172-187): clear the start-send bit, read the error register, read the
communication-interrupt register, fail on timer-interrupt bit or an error
bit in mask 0x1B, otherwise (TRANSCEIVE only) drain the FIFO and read the
valid-bit count. -/
def afterWait (dev : Device) (command : Nat) (s : St) : PiccResult × St :=
  let s1 := clearBitMask dev s BitFramingReg 0x80
  let e := readRegister dev s1 ErrorReg
  let q := readRegister dev e.2 CommIrqReg
  if q.1 &&& 0x01 ≠ 0 ∨ e.1 &&& 0x1B ≠ 0 then
    ({ status := false, backData := [], backBits := 0 }, q.2)
  else if command = PCD_TRANSCEIVE then
    let fl := readRegister dev q.2 FIFOLevelReg
    let d := drainFifo dev fl.1 fl.2
    let c := readRegister dev d.2 ControlReg
    ({ status := true, backData := d.1, backBits := c.1 &&& 0x07 }, c.2)
  else
    ({ status := true, backData := [], backBits := 0 }, q.2)

/-- The setup phase of `communicateWithPICC` before its wait loop (source
lines 148-160): arm the selected interrupts, clear the interrupt-request
register, flush the FIFO, cancel any pending command, load the send bytes,
issue the command, and (TRANSCEIVE only) raise the start-send bit. -/
def commSetup (dev : Device) (command : Nat) (sendData : List Nat)
    (s : St) : St :=
  let s1 := writeRegister s CommIEnReg ((irqMasks command).1 ||| 0x80)
  let s2 := clearBitMask dev s1 CommIrqReg 0x80
  let s3 := setBitMask dev s2 FIFOLevelReg 0x80
  let s4 := writeRegister s3 CommandReg PCD_IDLE
  let s5 := sendData.foldl (fun st b => writeRegister st FIFODataReg b) s4
  let s6 := writeRegister s5 CommandReg command
  if command = PCD_TRANSCEIVE then setBitMask dev s6 BitFramingReg 0x80
  else s6

/-- Source lines 134-188.  The source's default `timeoutMs` is 200; callers
below pass it explicitly.  `start` is `input.runningTime()` captured at the
loop entry (source line 164). -/
def communicateWithPICC (dev : Device) (command : Nat) (sendData : List Nat)
    (timeoutMs fuel : Nat) (s : St) : Option (PiccResult × St) :=
  let s7 := commSetup dev command sendData s
  match waitLoop dev (irqMasks command).2 timeoutMs s7.clock fuel s7 with
  | none => none
  | some s8 => some (afterWait dev command s8)

/-- Source lines 198-214 (`init`): pin setup and SPI setup carry no register
traffic; then soft reset, timer/modulation configuration, antenna on, and
the `_initialized` flag is set. -/
def init (dev : Device) (s : St) : St :=
  let s1 := reset s
  let s2 := writeRegister s1 TModeReg 0x8D
  let s3 := writeRegister s2 TPrescalerReg 0x3E
  let s4 := writeRegister s3 TReloadRegL 30
  let s5 := writeRegister s4 TReloadRegH 0
  let s6 := writeRegister s5 TxAutoReg 0x40
  let s7 := writeRegister s6 ModeReg 0x3D
  { antennaOn dev s7 with inited := true }

/-- Source lines 220-226. -/
def tagPresent (dev : Device) (fuel : Nat) (s : St) : Option (Bool × St) :=
  if s.inited = false then some (false, s)
  else
    let s1 := writeRegister s BitFramingReg 0x07
    match communicateWithPICC dev PCD_TRANSCEIVE [PICC_REQIDL] 200 fuel s1 with
    | none => none
    | some (r, s2) => some (r.status && !r.backData.isEmpty, s2)

/-- Source lines 251-263: the processing of a successful anticollision
response.  The source computes the exclusive-OR of the first 4 bytes and
compares it with the 5th, but the mismatch branch is empty (source line
259-261), so both branches return the same 4 bytes. -/
def processAnticoll (res : PiccResult) : String :=
  if res.status = false ∨ res.backData.length < 5 then ""
  else
    let uid := res.backData.take 5
    let bcc := (uid.take 4).foldl (fun a b => a ^^^ b) 0
    if bcc ≠ uid.getD 4 0 then
      -- source: BCC mismatch branch body is empty; still return 4 bytes
      toHexString (uid.take 4)
    else
      toHexString (uid.take 4)

/-- Source lines 232-264 (`readUID`). -/
def readUID (dev : Device) (fuel : Nat) (s : St) : Option (String × St) :=
  if s.inited = false then some ("", s)
  else
    let s1 := writeRegister s BitFramingReg 0x07
    match communicateWithPICC dev PCD_TRANSCEIVE [PICC_REQIDL] 200 fuel s1 with
    | none => none
    | some (r1, s2) =>
      if r1.status = false ∨ r1.backData = [] then some ("", s2)
      else
        let s3 := writeRegister s2 BitFramingReg 0x00
        match communicateWithPICC dev PCD_TRANSCEIVE [PICC_ANTICOLL, 0x20]
            200 fuel s3 with
        | none => none
        | some (r2, s4) => some (processAnticoll r2, s4)

/-- Source lines 270-277 (`haltTag`): build `[HALT, 0x00]`, append the two
CRC bytes, send it in TRANSCEIVE mode, discard the result. -/
def haltTag (dev : Device) (fuel : Nat) (s : St) : Option St :=
  if s.inited = false then some s
  else
    let buf := [PICC_HALT, 0x00]
    let c := calculateCRC dev buf s
    let buf2 := buf ++ [c.1.getD 0 0, c.1.getD 1 0]
    (communicateWithPICC dev PCD_TRANSCEIVE buf2 200 fuel c.2).map
      (fun p => p.2)

/-- Source lines 284-286 (`readReg`): the diagnostic register read.  Note:
the source has no `_initialized` guard here. -/
def readReg (dev : Device) (s : St) (addr : Nat) : Nat × St :=
  readRegister dev s addr

-- Concrete mocks and states used by witnesses and counterexamples.

/-- Mock transport answering 0 to every register read, one time unit per
read. -/
def zeroDev : Device := ⟨fun _ _ => 0, 1⟩

/-- Mock transport whose answer depends on the global read index: 3 for the
very first read, 0 afterwards. -/
def devTx : Device := ⟨fun k _ => if k = 0 then 3 else 0, 1⟩

/-- Mock transport that keeps the wait flag raised and an error bit raised:
the communication-interrupt register reads 0x30, the error register 0x08. -/
def devErr : Device := ⟨fun _ a => if a = ErrorReg then 0x08 else 0x30, 1⟩

/-- Mock transport that immediately reports CRC-ready (0x04) and holds 0xAB
in the CRC low register and 0xCD in the CRC high register. -/
def devCrc : Device :=
  ⟨fun _ a =>
    if a = DivIrqReg then 0x04
    else if a = 0x22 then 0xAB
    else if a = 0x21 then 0xCD
    else 0, 1⟩

/-- Mock transport answering 0 to every register read, with 300 time units
per read (each poll is slower than the 200 default timeout). -/
def slowDev : Device := ⟨fun _ _ => 0, 300⟩

/-- An initialized starting state. -/
def st0 : St := ⟨0, 0, [], true⟩

/-- An uninitialized starting state. -/
def stU : St := ⟨0, 0, [], false⟩

/-- The register-write sequence one `init` call emits when every read of the
transmit-control register answers `v`: the seven fixed configuration writes,
then the antenna write exactly when the low two bits of `v` are not both
set.  (Derived from `init`; used to compare the traces of two calls.) -/
def initTrace (v : Nat) : List (Nat × Nat) :=
  [(CommandReg, PCD_RESETPHASE), (TModeReg, 0x8D), (TPrescalerReg, 0x3E),
   (TReloadRegL, 30), (TReloadRegH, 0), (TxAutoReg, 0x40), (ModeReg, 0x3D)]
  ++ (if v &&& 0x03 ≠ 0x03 then [(TxControlReg, v ||| 0x03)] else [])

end RC522

/-
Theorems.
-/

namespace SpiLevel

/-- Claim C7: for all register addresses 0-63 and all byte values,
`writeRegister addr val` sends exactly the bytes `[(addr<<1)&0x7E, val]`
inside one chip-select bracket (CS asserted before, deasserted after), and
`readRegister addr` sends `[((addr<<1)&0x7E)|0x80]`, clocks one byte back,
and returns that byte. -/
theorem register_framing (addr val : Nat) (bus : Bus) (s : BusSt)
    (haddr : addr < 64) (hval : val < 256) :
    (writeRegister s addr val).evs = s.evs ++
        [BusEv.pinWrite sdaPin 0,
         BusEv.spiWrite ((addr <<< 1) &&& 0x7E),
         BusEv.spiWrite val,
         BusEv.pinWrite sdaPin 1]
    ∧ (readRegister bus s addr).2.evs = s.evs ++
        [BusEv.pinWrite sdaPin 0,
         BusEv.spiWrite (((addr <<< 1) &&& 0x7E) ||| 0x80),
         BusEv.spiRead (bus.resp s.readsDone),
         BusEv.pinWrite sdaPin 1]
    ∧ (readRegister bus s addr).1 = bus.resp s.readsDone :=
  ⟨rfl, rfl, rfl⟩

/-- Claim C7, witness: the framing law at address 0x2A, value 0x8D, on a bus
answering 7 to every read, starting from the empty trace. -/
theorem register_framing_witness :
    (writeRegister ⟨[], 0⟩ 42 141).evs =
        [BusEv.pinWrite sdaPin 0, BusEv.spiWrite 84,
         BusEv.spiWrite 141, BusEv.pinWrite sdaPin 1]
    ∧ (readRegister ⟨fun _ => 7⟩ ⟨[], 0⟩ 42).2.evs =
        [BusEv.pinWrite sdaPin 0, BusEv.spiWrite 212,
         BusEv.spiRead 7, BusEv.pinWrite sdaPin 1]
    ∧ (readRegister ⟨fun _ => 7⟩ ⟨[], 0⟩ 42).1 = 7 :=
  register_framing 42 141 ⟨fun _ => 7⟩ ⟨[], 0⟩ (by decide) (by decide)

end SpiLevel

namespace RC522

/-- Claim C2: after the wait loop, the engine reads the error register and
then the communication-interrupt register; the call fails exactly when the
timer-interrupt bit 0x01 of that interrupt read or an error bit in mask
0x1B of that error read is set (so a raised wait flag cannot rescue an
erroneous exchange), and on failure the result is exactly
`{status := false, backData := [], backBits := 0}`. -/
theorem communicate_validation (dev : Device) (cmd : Nat) (s : St) :
    ((afterWait dev cmd s).1.status = false ↔
      (dev.readFn (s.reads + 2) CommIrqReg &&& 0x01 ≠ 0 ∨
       dev.readFn (s.reads + 1) ErrorReg &&& 0x1B ≠ 0))
    ∧ ((afterWait dev cmd s).1.status = false →
        (afterWait dev cmd s).1 = ⟨false, [], 0⟩) := by
  unfold afterWait
  simp only [clearBitMask, readRegister, writeRegister]
  split
  next h => exact ⟨iff_of_true rfl h, fun _ => rfl⟩
  next h =>
    refine ⟨iff_of_false ?_ h, ?_⟩
    · split <;> simp
    · intro hfalse
      exfalso
      revert hfalse
      split <;> simp

/-- Claim C2, witness: against a transport whose interrupt register always
reads 0x30 (wait flag raised, timer bit clear) and whose error register
reads 0x08 (an error bit inside mask 0x1B), the engine fails with the
empty result, despite the raised wait flag. -/
theorem communicate_validation_witness :
    (afterWait devErr PCD_TRANSCEIVE st0).1 = ⟨false, [], 0⟩ :=
  (communicate_validation devErr PCD_TRANSCEIVE st0).2
    ((communicate_validation devErr PCD_TRANSCEIVE st0).1.mpr
      (Or.inr (by decide)))

/-- Claim C4: whenever the anticollision exchange succeeded with at least 5
received bytes, the driver returns the hex rendering of the first 4 bytes,
whether or not their exclusive-OR matches the 5th byte (a BCC mismatch is
tolerated, as in the source's empty mismatch branch). -/
theorem anticoll_returns_uid (res : PiccResult)
    (hs : res.status = true) (hl : 5 ≤ res.backData.length) :
    processAnticoll res = toHexString (res.backData.take 4) := by
  have h5 : ¬ (res.status = false ∨ res.backData.length < 5) := by
    rintro (hc | hc)
    · rw [hc] at hs
      exact Bool.noConfusion hs
    · omega
  unfold processAnticoll
  rw [if_neg h5]
  norm_num [List.take_take]

/-- Claim C4, witness: identifier bytes 0x12 0x34 0x56 0x78 with checksum
byte 0x00 (which does not match their exclusive-OR 0x08) still yield the
4-byte identifier. -/
theorem anticoll_returns_uid_witness :
    processAnticoll ⟨true, [0x12, 0x34, 0x56, 0x78, 0x00], 0⟩
      = toHexString ([0x12, 0x34, 0x56, 0x78, 0x00].take 4) :=
  anticoll_returns_uid ⟨true, [0x12, 0x34, 0x56, 0x78, 0x00], 0⟩ rfl
    (by decide)

/-- Claim C8, counterexample: the diagnostic register read does not
short-circuit on an un-initialized handle; on the uninitialized state it
still performs one bus read (the read counter and the clock advance). -/
theorem readReg_uninit_counterexample :
    stU.inited = false ∧ readReg zeroDev stU 0x06 = (0, ⟨1, 1, [], false⟩) := by
  decide

/-- Claim C8 (amended): until init has completed, `tagPresent` returns false,
`readUID` returns the empty string and `haltTag` returns with no bus
traffic (the state is unchanged); but `readReg` has no guard and always
performs the register read.  No operation panics. -/
theorem uninit_fail_closed (dev : Device) (fuel addr : Nat) (s : St)
    (h : s.inited = false) :
    tagPresent dev fuel s = some (false, s)
    ∧ readUID dev fuel s = some ("", s)
    ∧ haltTag dev fuel s = some s
    ∧ readReg dev s addr = readRegister dev s addr := by
  refine ⟨?_, ?_, ?_, rfl⟩ <;> simp [tagPresent, readUID, haltTag, h]

/-- Claim C8, witness: the amended fail-closed behavior at the concrete
uninitialized state over the all-zero transport. -/
theorem uninit_fail_closed_witness :
    tagPresent zeroDev 5 stU = some (false, stU)
    ∧ readUID zeroDev 5 stU = some ("", stU)
    ∧ haltTag zeroDev 5 stU = some stU
    ∧ readReg zeroDev stU 6 = readRegister zeroDev stU 6 :=
  uninit_fail_closed zeroDev 5 6 stU rfl

/-- Claim C10: when initialized, `haltTag` builds `[HALT, 0x00]` extended
with the two CRC bytes, sends it through the Command Engine in TRANSCEIVE
mode with the default 200 timeout, and returns only the final state,
discarding the engine's result record entirely (a failed HALT exchange is
never visible to the caller). -/
theorem haltTag_discards_result (dev : Device) (fuel : Nat) (s : St)
    (hinit : s.inited = true) :
    haltTag dev fuel s
      = (communicateWithPICC dev PCD_TRANSCEIVE
          ([PICC_HALT, 0x00] ++
            [(calculateCRC dev [PICC_HALT, 0x00] s).1.getD 0 0,
             (calculateCRC dev [PICC_HALT, 0x00] s).1.getD 1 0])
          200 fuel (calculateCRC dev [PICC_HALT, 0x00] s).2).map
        (fun p => p.2) := by
  simp [haltTag, hinit]

/-- Claim C10, witness: the halt law at the concrete initialized state over
the all-zero transport. -/
theorem haltTag_discards_result_witness :
    haltTag zeroDev 10 st0
      = (communicateWithPICC zeroDev PCD_TRANSCEIVE
          ([PICC_HALT, 0x00] ++
            [(calculateCRC zeroDev [PICC_HALT, 0x00] st0).1.getD 0 0,
             (calculateCRC zeroDev [PICC_HALT, 0x00] st0).1.getD 1 0])
          200 10 (calculateCRC zeroDev [PICC_HALT, 0x00] st0).2).map
        (fun p => p.2) :=
  haltTag_discards_result zeroDev 10 st0 rfl

/-- Claim C1, counterexample: against the all-zero transport (wait-mask bit
and timer-interrupt bit never set, one time unit per poll) with timeout 2,
the call returns, but with status success and empty data, after 11 time
units have elapsed: the software timeout alone does not produce a failure
status. -/
theorem communicate_timeout_counterexample :
    (communicateWithPICC zeroDev PCD_TRANSCEIVE [] 2 10 st0).map
        (fun p => (p.1, p.2.clock))
      = some (⟨true, [], 0⟩, 11) := by decide

/-- The wait loop always returns within the fuel budget once each poll costs
at least one time unit and the fuel covers the wall-clock timeout: whichever
break fires first, a result is produced. -/
theorem waitLoop_some (dev : Device) (waitIRq t start : Nat)
    (hrc : 1 ≤ dev.readCost) :
    ∀ fuel s, start ≤ s.clock → s.clock ≤ start + t →
      start + t + 1 ≤ s.clock + fuel * dev.readCost →
      ∃ s1, waitLoop dev waitIRq t start fuel s = some s1 := by
  intro fuel
  induction fuel with
  | zero =>
    intro s h1 h2 h3
    rw [Nat.zero_mul] at h3
    omega
  | succ n ih =>
    intro s h1 h2 h3
    rw [Nat.succ_mul] at h3
    simp only [waitLoop, readRegister]
    split
    next => exact ⟨_, rfl⟩
    next =>
      split
      next => exact ⟨_, rfl⟩
      next =>
        split
        next => exact ⟨_, rfl⟩
        next h =>
          simp only [not_lt] at h
          apply ih
          · show start ≤ s.clock + dev.readCost
            omega
          · show s.clock + dev.readCost ≤ start + t
            have hb : s.clock + dev.readCost - start ≤ t := h
            omega
          · show start + t + 1 ≤ s.clock + dev.readCost + n * dev.readCost
            omega

/-- Claim C1 (amended): against a transport on which the
communication-interrupt register never has a wait-mask bit or the
timer-interrupt bit set and each poll consumes at least one time unit, the
call does return once enough wall-clock timeout budget is covered (it does
not hang) - but the counterexample above shows that the returned status is
not necessarily failure: it is failure exactly under the validation rule of
claim C2. -/
theorem communicate_no_hang (dev : Device) (sendData : List Nat)
    (timeoutMs fuel : Nat) (s : St)
    (hrc : 1 ≤ dev.readCost)
    (hwait : ∀ k, dev.readFn k CommIrqReg &&& 0x30 = 0)
    (htimer : ∀ k, dev.readFn k CommIrqReg &&& 0x01 = 0)
    (hfuel : timeoutMs + 1 ≤ fuel) :
    ∃ out, communicateWithPICC dev PCD_TRANSCEIVE sendData timeoutMs fuel s
      = some out := by
  have hm : timeoutMs + 1 ≤ fuel * dev.readCost := by
    calc timeoutMs + 1 ≤ fuel := hfuel
    _ = fuel * 1 := (Nat.mul_one fuel).symm
    _ ≤ fuel * dev.readCost := Nat.mul_le_mul_left fuel hrc
  obtain ⟨s8, h8⟩ := waitLoop_some dev (irqMasks PCD_TRANSCEIVE).2 timeoutMs
      (commSetup dev PCD_TRANSCEIVE sendData s).clock hrc fuel
      (commSetup dev PCD_TRANSCEIVE sendData s) le_rfl
      (Nat.le_add_right _ _) (by omega)
  refine ⟨afterWait dev PCD_TRANSCEIVE s8, ?_⟩
  show (match waitLoop dev (irqMasks PCD_TRANSCEIVE).2 timeoutMs
      (commSetup dev PCD_TRANSCEIVE sendData s).clock fuel
      (commSetup dev PCD_TRANSCEIVE sendData s) with
    | none => none
    | some s9 => some (afterWait dev PCD_TRANSCEIVE s9)) =
    some (afterWait dev PCD_TRANSCEIVE s8)
  rw [h8]

/-- Claim C1, witness: the no-hang law at the all-zero transport, timeout 2,
fuel 10. -/
theorem communicate_no_hang_witness :
    ∃ out, communicateWithPICC zeroDev PCD_TRANSCEIVE [] 2 10 st0
      = some out :=
  communicate_no_hang zeroDev [] 2 10 st0 (by decide)
    (fun _ => Nat.zero_and 0x30) (fun _ => Nat.zero_and 0x01) (by decide)

/-- Claim C3, counterexample: with the zero wait mask over the all-zero
transport and timeout 3, the wait loop does not proceed after its first poll
(one unit of fuel is not enough); it spins until the wall clock passes the
timeout, finishing only after 4 polls and 4 time units. -/
theorem nonTransceive_wait_counterexample :
    waitLoop zeroDev 0x00 3 0 1 st0 = none
    ∧ waitLoop zeroDev 0x00 3 0 10 st0 = some ⟨4, 4, [], true⟩ := by decide

/-- Claim C3 (amended): every command other than TRANSCEIVE selects the
interrupt-enable mask 0x12 and the zero wait mask - but with the zero wait
mask the wait-flag break can never fire (`n &&& 0 = 0`), so the wait step
does block: it ends only when the timer-interrupt bit is observed or the
wall-clock timeout elapses. -/
theorem nonTransceive_masks (cmd : Nat) (dev : Device)
    (t start fuel : Nat) (s s1 : St)
    (hcmd : cmd ≠ PCD_TRANSCEIVE)
    (hloop : waitLoop dev 0x00 t start fuel s = some s1) :
    irqMasks cmd = (0x12, 0x00)
    ∧ ((∃ k, dev.readFn k CommIrqReg &&& 0x01 ≠ 0) ∨ t < s1.clock - start) := by
  refine ⟨by simp [irqMasks, hcmd], ?_⟩
  induction fuel generalizing s with
  | zero => simp [waitLoop] at hloop
  | succ n ih =>
    simp only [waitLoop, readRegister, Nat.and_zero, ne_eq,
      not_true_eq_false, if_false, ite_false] at hloop
    split at hloop
    next h => exact Or.inl ⟨s.reads, h⟩
    next =>
      split at hloop
      next h =>
        obtain rfl : _ = s1 := Option.some.inj hloop
        exact Or.inr h
      next => exact ih _ hloop

/-- Claim C3, witness: the amended law at command IDLE over the all-zero
transport: the masks are (0x12, 0x00) and the loop ends by wall-clock
timeout (final clock 4 exceeds start 0 plus timeout 3). -/
theorem nonTransceive_masks_witness :
    irqMasks PCD_IDLE = (0x12, 0x00)
    ∧ ((∃ k, zeroDev.readFn k CommIrqReg &&& 0x01 ≠ 0)
       ∨ 3 < (⟨4, 4, [], true⟩ : St).clock - 0) :=
  nonTransceive_masks PCD_IDLE zeroDev 3 0 10 st0 ⟨4, 4, [], true⟩
    (by decide) (by decide)

/-- Claim C5: if the REQUEST_IDLE exchange fails or returns no bytes,
`readUID` returns the empty string with the state of that first exchange
unchanged (the ANTICOLLISION exchange never runs); and if the ANTICOLLISION
exchange fails or returns fewer than 5 bytes, `readUID` returns the empty
string as well. -/
theorem readUID_short_circuit (dev : Device) (fuel : Nat) (s : St)
    (r1 : PiccResult) (s2 : St)
    (hinit : s.inited = true)
    (h1 : communicateWithPICC dev PCD_TRANSCEIVE [PICC_REQIDL] 200 fuel
        (writeRegister s BitFramingReg 0x07) = some (r1, s2)) :
    ((r1.status = false ∨ r1.backData = []) →
        readUID dev fuel s = some ("", s2))
    ∧ (∀ r2 s4, r1.status = true → r1.backData ≠ [] →
        communicateWithPICC dev PCD_TRANSCEIVE [PICC_ANTICOLL, 0x20] 200 fuel
          (writeRegister s2 BitFramingReg 0x00) = some (r2, s4) →
        (r2.status = false ∨ r2.backData.length < 5) →
        readUID dev fuel s = some ("", s4)) := by
  constructor
  · intro hc
    simp [readUID, hinit, h1, hc]
  · intro r2 s4 hst hne h2 hc2
    simp [readUID, hinit, h1, hst, hne, h2, processAnticoll, hc2]

/-- Claim C5, witness: over the all-zero transport with 300 time units per
poll, the REQUEST_IDLE exchange succeeds with empty data, and `readUID`
returns the empty string with exactly that exchange state. -/
theorem readUID_short_circuit_witness :
    readUID slowDev 10 st0
      = some ("", ⟨2700, 9,
          [(13, 7), (2, 247), (4, 0), (10, 128), (1, 0), (9, 38), (1, 12),
           (13, 128), (13, 0)], true⟩) :=
  (readUID_short_circuit slowDev 10 st0 ⟨true, [], 0⟩
      ⟨2700, 9,
        [(13, 7), (2, 247), (4, 0), (10, 128), (1, 0), (9, 38), (1, 12),
         (13, 128), (13, 0)], true⟩
      rfl (by decide)).1 (Or.inr rfl)

/-- If none of the first `fuel` polls sees the CRC-ready bit, the poll loop
returns the sentinel `[0, 0]`. -/
theorem crcPoll_exhaust (dev : Device) :
    ∀ fuel s,
      (∀ k, k < fuel → dev.readFn (s.reads + k) DivIrqReg &&& 0x04 = 0) →
      (crcPoll dev fuel s).1 = [0, 0] := by
  intro fuel
  induction fuel with
  | zero => intro s h; rfl
  | succ n ih =>
    intro s h
    have h0 : dev.readFn s.reads DivIrqReg &&& 0x04 = 0 := by
      have := h 0 (Nat.succ_pos n)
      simpa using this
    simp only [crcPoll, readRegister]
    rw [if_neg (fun hne => hne h0)]
    apply ih
    intro k hk
    have := h (k + 1) (Nat.succ_lt_succ hk)
    show dev.readFn (s.reads + 1 + k) DivIrqReg &&& 0x04 = 0
    have harr : s.reads + 1 + k = s.reads + (k + 1) := by omega
    rw [harr]
    exact this

/-- If poll `k` is the first poll that sees the CRC-ready bit, the poll loop
returns exactly the next two register reads (low then high). -/
theorem crcPoll_hit (dev : Device) :
    ∀ fuel k s, k < fuel →
      (∀ j, j < k → dev.readFn (s.reads + j) DivIrqReg &&& 0x04 = 0) →
      dev.readFn (s.reads + k) DivIrqReg &&& 0x04 ≠ 0 →
      (crcPoll dev fuel s).1
        = [dev.readFn (s.reads + k + 1) 0x22,
           dev.readFn (s.reads + k + 2) 0x21] := by
  intro fuel
  induction fuel with
  | zero => intro k s hk; omega
  | succ n ih =>
    intro k s hk hclean hhit
    cases k with
    | zero =>
      simp only [crcPoll, readRegister]
      rw [if_pos (by simpa using hhit)]
    | succ m =>
      have h0 : dev.readFn s.reads DivIrqReg &&& 0x04 = 0 := by
        have := hclean 0 (Nat.succ_pos m)
        simpa using this
      simp only [crcPoll, readRegister]
      rw [if_neg (fun hne => hne h0)]
      have heq : ∀ i : Nat, s.reads + 1 + i = s.reads + (i + 1) := by omega
      have hres := ih m ⟨s.clock + dev.readCost, s.reads + 1, s.writes,
          s.inited⟩ (by omega)
        (fun j hj => by
          show dev.readFn (s.reads + 1 + j) DivIrqReg &&& 0x04 = 0
          rw [heq j]
          exact hclean (j + 1) (Nat.succ_lt_succ hj))
        (by
          show dev.readFn (s.reads + 1 + m) DivIrqReg &&& 0x04 ≠ 0
          rw [heq m]
          exact hhit)
      rw [hres]
      have h1 : s.reads + 1 + m + 1 = s.reads + (m + 1) + 1 := by omega
      have h2 : s.reads + 1 + m + 2 = s.reads + (m + 1) + 2 := by omega
      rw [h1, h2]

/-- The poll loop performs at most `fuel + 2` further register reads. -/
theorem crcPoll_reads_le (dev : Device) :
    ∀ fuel s, (crcPoll dev fuel s).2.reads ≤ s.reads + fuel + 2 := by
  intro fuel
  induction fuel with
  | zero =>
    intro s
    show s.reads ≤ s.reads + 0 + 2
    omega
  | succ n ih =>
    intro s
    simp only [crcPoll, readRegister]
    split
    next =>
      show s.reads + 1 + 1 + 1 ≤ s.reads + (n + 1) + 2
      omega
    next =>
      have := ih ⟨s.clock + dev.readCost, s.reads + 1, s.writes, s.inited⟩
      simp only at this
      omega

/-- A register write does not change the read counter. -/
theorem writeRegister_reads (s : St) (a v : Nat) :
    (writeRegister s a v).reads = s.reads := rfl

/-- A read-modify-write helper performs exactly one register read. -/
theorem setBitMask_reads (dev : Device) (s : St) (r m : Nat) :
    (setBitMask dev s r m).reads = s.reads + 1 := rfl

/-- The register writes performed while loading the FIFO do not change the
read counter. -/
theorem foldl_write_reads (data : List Nat) :
    ∀ s : St, (data.foldl (fun st b => writeRegister st FIFODataReg b) s).reads
      = s.reads := by
  induction data with
  | nil => intro s; rfl
  | cons b bs ih => intro s; exact ih (writeRegister s FIFODataReg b)

/-- Claim C6: `calculateCRC` polls the divider-interrupt register at most
255 times (at most 258 reads in total); if the CRC-ready bit 0x04 is first
seen at poll `k`, it returns the two following register reads - the CRC low
register 0x22 then the CRC high register 0x21 - unmodified; and if all 255
polls stay clean it returns `[0, 0]` rather than signaling an error.
(Polling starts at global read index `s.reads + 1`, after the single read
the CRC-flag clearing performs.) -/
theorem calculateCRC_spec (dev : Device) (data : List Nat) (s : St) :
    ((∀ k, k < 255 → dev.readFn (s.reads + 1 + k) DivIrqReg &&& 0x04 = 0) →
      (calculateCRC dev data s).1 = [0, 0])
    ∧ (∀ k, k < 255 →
        (∀ j, j < k → dev.readFn (s.reads + 1 + j) DivIrqReg &&& 0x04 = 0) →
        dev.readFn (s.reads + 1 + k) DivIrqReg &&& 0x04 ≠ 0 →
        (calculateCRC dev data s).1
          = [dev.readFn (s.reads + 1 + k + 1) 0x22,
             dev.readFn (s.reads + 1 + k + 2) 0x21])
    ∧ (calculateCRC dev data s).2.reads ≤ s.reads + 258 := by
  obtain ⟨S5, hS5r, hS5⟩ :
      ∃ S5 : St, S5.reads = s.reads + 1
        ∧ calculateCRC dev data s = crcPoll dev 255 S5 := by
    refine ⟨_, ?_, rfl⟩
    simp only [writeRegister_reads, foldl_write_reads, setBitMask_reads]
  rw [hS5]
  refine ⟨?_, ?_, ?_⟩
  · intro h
    apply crcPoll_exhaust
    rw [hS5r]
    exact h
  · intro k hk hclean hhit
    rw [crcPoll_hit dev 255 k S5 hk (by rw [hS5r]; exact hclean)
      (by rw [hS5r]; exact hhit), hS5r]
  · have := crcPoll_reads_le dev 255 S5
    rw [hS5r] at this
    omega

/-- Claim C6, witness: over a transport that immediately reports CRC-ready
and holds 0xAB / 0xCD in the CRC result registers, `calculateCRC []`
returns `[0xAB, 0xCD]` - the mock bytes, unmodified, in (low, high)
order. -/
theorem calculateCRC_spec_witness :
    (calculateCRC devCrc [] st0).1 = [0xAB, 0xCD] :=
  (calculateCRC_spec devCrc [] st0).2.1 0 (by decide)
    (fun j hj => absurd hj (Nat.not_lt_zero j)) (by decide)

/-- Claim C9, counterexample: against a transport whose read answers depend
on the read history (the first read returns 3, later reads return 0), the
first `init` call skips the antenna write but the second performs it: the
two calls emit different register-write sequences. -/
theorem init_twice_counterexample :
    (init devTx stU).writes.drop stU.writes.length
      ≠ (init devTx (init devTx stU)).writes.drop
          (init devTx stU).writes.length := by decide

/-- Each `init` call appends exactly `initTrace` to the write log when the
transport answers reads by address alone. -/
theorem init_writes (dev : Device) (f : Nat → Nat)
    (hf : ∀ k a, dev.readFn k a = f a) (s : St) :
    (init dev s).writes = s.writes ++ initTrace (f TxControlReg) := by
  by_cases hv : f TxControlReg &&& 0x03 = 0x03 <;>
    simp [init, reset, antennaOn, readRegister, writeRegister, hf,
      initTrace, hv]

/-- Claim C9 (amended): when the transport's read answers depend only on the
register address (a stateless mock), calling `init` twice in succession
emits the same register-write sequence both times.  The counterexample
shows this fails for transports whose answers change between the calls. -/
theorem init_stateless_idempotent (dev : Device) (f : Nat → Nat) (s : St)
    (hf : ∀ k a, dev.readFn k a = f a) :
    (init dev s).writes.drop s.writes.length
      = (init dev (init dev s)).writes.drop (init dev s).writes.length := by
  rw [init_writes dev f hf s, init_writes dev f hf (init dev s),
    List.drop_left, init_writes dev f hf s, List.drop_left]

/-- Claim C9, witness: the stateless-idempotence law at the all-zero
transport from the uninitialized state. -/
theorem init_stateless_idempotent_witness :
    (init zeroDev stU).writes.drop stU.writes.length
      = (init zeroDev (init zeroDev stU)).writes.drop
          (init zeroDev stU).writes.length :=
  init_stateless_idempotent zeroDev (fun _ => 0) stU (fun _ _ => rfl)

end RC522
